import Mathlib

/-!
Shallow embedding of the `mmsearch_r1` search tools
(`mmsearch_r1/utils/tools/image_search.py` and
`mmsearch_r1/utils/tools/text_search.py`) and proofs about their
retrieval-and-aggregation behaviour.

Decoded images are opaque to the pipeline logic: we represent a decoded
image by a natural-number token.  Network providers are oracles supplied
in an environment record; the embedding additionally records which live
provider calls a run performs, so that short-circuit properties are
statable.
-/

/-- A decoded (PIL) image, opaque to the pipeline: identified by a token. -/
abbrev Img := Nat

/-- One element of `tool_returned_images_urls` in a cache entry: the source
stores either an already-decoded PIL image, a string (possibly a URL), or
some other value (handled as title-only). -/
inductive CacheRef where
  | img (i : Img)
  | url (s : String)
  | other
deriving DecidableEq

/-- A cache entry: `tool_returned_web_title_list` and
`tool_returned_images_urls` (defaulting to `[]` via `.get`). -/
structure CacheEntry where
  titles : List String
  refs : List CacheRef
deriving DecidableEq

/-- The `error` slot of a returned tool-stat dictionary: the key can be
missing entirely, present with value `None`, or present with a message. -/
inductive EField where
  | absent
  | null
  | msg (s : String)
deriving DecidableEq

/-- The image tool-stat dictionary.  `source` is `some "cache"` when the
dict carries a `"source"` key and `none` when the key is missing. -/
structure ImgStat where
  success : Bool
  num_images : Nat
  num_results : Nat
  error : EField
  source : Option String
deriving DecidableEq

/-- One entry of the `visual_matches` list of a SerpAPI Google Lens
response; the source reads each field with `.get(k, "")`, so a missing
field is the empty string. -/
structure SerpMatch where
  thumbnail : String
  image : String
  title : String
  link : String
  source : String
deriving DecidableEq

/-- Outcome of the one live SerpAPI request `call_image_search` can make:
either an HTTP response (status code, raw body, parsed
`search_metadata.status`, optional `search_metadata.error`, parsed
`visual_matches`), or one of the exception classes the source catches. -/
inductive SerpResponse where
  | http (status : Nat) (body : String) (metaStatus : String)
      (metaError : Option String) (vmatches : List SerpMatch)
  | reqException (m : String)
  | keyException (m : String)
  | otherException (m : String)

/-- Environment for `call_image_search`: the configured API key, the
`download_image_from_url` oracle (`none` = download/decoding failed), the
live provider's response, and the two loaded cache partitions. -/
structure ImgEnv where
  serpapi_api_key : String
  fetch : String → Option Img
  serp : SerpResponse
  cacheTrain : List (String × CacheEntry)
  cacheTest : List (String × CacheEntry)

/-- Result of `call_image_search`: the report string, the returned image
list, the tool-stat dict, and (ghost instrumentation) how many live
reverse-image-search provider calls were made. -/
structure ImgResult where
  report : String
  images : List Img
  stat : ImgStat
  liveCalls : Nat
deriving DecidableEq

/-- `image_url.startswith("http://") or image_url.startswith("https://")`,
as a character-level prefix test; the source's emptiness tests are
subsumed (an empty string has neither prefix). -/
def isHttpUrl (s : String) : Bool :=
  "http://".data.isPrefixOf s.data || "https://".data.isPrefixOf s.data

/-- Substring test, via `splitOn`: `pat` occurs in `s` iff splitting on it
yields more than one piece (source: Python `pat in s`). -/
def hasSubstr (s pat : String) : Bool :=
  (s.splitOn pat).length > 1

/-- `split = "train" if data_source and "train" in str(data_source).lower()
else "test"`. -/
def splitOf (data_source : Option String) : String :=
  match data_source with
  | none => "test"
  | some s => if s != "" && hasSubstr s.toLower "train" then "train" else "test"

/-- `_load_image_search_cache`: selects the train or test partition (the
loaded mappings live in the environment; load-once memoization is not
observable here). -/
def loadCache (env : ImgEnv) (split : String) : List (String × CacheEntry) :=
  if split = "train" then env.cacheTrain else env.cacheTest

def imgPreamble : String :=
  "[Image Search Results] The result of the image search consists of web page information related to the image from the user\x27s original question. Each result includes the main image from the web page and its title, ranked in descending order of search relevance, as demonstrated below:\n"

def imgSentinel : String :=
  "[Image Search Results] There is an error encountered in performing search. Please reason with your own capaibilities."

def imgNoResults : String :=
  "[Image Search Results] No relevant results found for the provided image."

def visionPad : String := "<|vision_start|><|image_pad|><|vision_end|>"

/-- The initial `tool_stat` dict of `call_image_search`:
`{"success": False, "num_images": 0, "num_results": 0, "error": None}`. -/
def initImgStat : ImgStat :=
  { success := false, num_images := 0, num_results := 0
    error := EField.null, source := none }

/-- `titles_to_process`: `title_list[:top_k]` when there are at least as
many stored titles as processed image refs, else the stored titles padded
with synthesized `"Result {i+1}"` names up to the processed-ref count. -/
def titlesToProcess (titles : List String) (top_k nUrls : Nat) : List String :=
  if titles.length ≥ nUrls then titles.take top_k
  else titles ++ (List.range (nUrls - titles.length)).map
      (fun i => "Result " ++ toString (i + 1))

/-- Body of the cache-resolution loop for one `(img_url, title)` pair at
1-based position `idx`: the report fragment and the images appended. -/
def cacheLine (fetch : String → Option Img) (idx : Nat) (ref : CacheRef)
    (title : String) : String × List Img :=
  match ref with
  | CacheRef.img i =>
      (toString idx ++ ". image: " ++ visionPad ++ "\ntitle: " ++ title ++ "\n", [i])
  | CacheRef.url s =>
      if isHttpUrl s then
        match fetch s with
        | some i =>
            (toString idx ++ ". image: " ++ visionPad ++ "\ntitle: " ++ title ++ "\n", [i])
        | none => (toString idx ++ ". title: " ++ title ++ "\n", [])
      else (toString idx ++ ". title: " ++ title ++ "\n", [])
  | CacheRef.other => (toString idx ++ ". title: " ++ title ++ "\n", [])

/-- The cache-resolution loop over the zipped `(img_url, title)` pairs. -/
def cacheLoop (fetch : String → Option Img) : Nat → List (CacheRef × String) → String × List Img
  | _, [] => ("", [])
  | idx, (r, t) :: rest =>
      let line := cacheLine fetch idx r t
      let restRes := cacheLoop fetch (idx + 1) rest
      (line.1 ++ restRes.1, line.2 ++ restRes.2)

/-- Cache-hit resolution (`data_id in cache` branch of
`call_image_search`): truncate refs to `top_k`, align titles, process each
pair, then apply the zero-images success policy and tag the stat with
`"source": "cache"`. -/
def resolveFromCache (fetch : String → Option Img) (entry : CacheEntry)
    (top_k : Nat) : ImgResult :=
  let urlsP := entry.refs.take top_k
  let titlesP := titlesToProcess entry.titles top_k urlsP.length
  let pairs := urlsP.zip titlesP
  let body := cacheLoop fetch 1 pairs
  let succ := decide (0 < body.2.length)
  { report := if succ then imgPreamble ++ body.1 else imgSentinel
    images := body.2
    stat := { success := succ, num_images := body.2.length
              num_results := urlsP.length, error := EField.absent
              source := some "cache" }
    liveCalls := 0 }

/-- Body of the live-results loop for one `visual_matches` entry at
1-based position `idx`. -/
def liveLine (fetch : String → Option Img) (idx : Nat) (m : SerpMatch) :
    String × List Img :=
  let thumbnail_url := if m.thumbnail != "" then m.thumbnail else m.image
  let title := if m.title != "" then m.title else "Result " ++ toString idx
  let extra := (if m.source != "" then "source: " ++ m.source ++ "\n" else "")
      ++ (if m.link != "" then "link: " ++ m.link ++ "\n" else "")
  if thumbnail_url != "" then
    match fetch thumbnail_url with
    | some i =>
        (toString idx ++ ". image: " ++ visionPad ++ "\ntitle: " ++ title ++ "\n" ++ extra, [i])
    | none => (toString idx ++ ". title: " ++ title ++ "\n" ++ extra, [])
  else (toString idx ++ ". title: " ++ title ++ "\n" ++ extra, [])

/-- The live-results loop over the truncated `visual_matches`. -/
def liveLoop (fetch : String → Option Img) : Nat → List SerpMatch → String × List Img
  | _, [] => ("", [])
  | idx, m :: rest =>
      let line := liveLine fetch idx m
      let restRes := liveLoop fetch (idx + 1) rest
      (line.1 ++ restRes.1, line.2 ++ restRes.2)

/-- `api_key == "REDACTED" or not api_key`. -/
def keyMissing (k : String) : Bool :=
  k == "REDACTED" || k == ""

def apiKeyMsgImg : String :=
  "SERPAPI_API_KEY is not set. Please set it as an environment variable or update the code."

def noIdMsg : String :=
  "Image URL is not set and no data_id provided. Cannot perform search."

/-- The live half of `call_image_search`: API-key check, the SerpAPI
request, error handling, truncation to `top_k` and the per-match loop. -/
def liveBranch (env : ImgEnv) (top_k : Nat) : ImgResult :=
  if keyMissing env.serpapi_api_key then
    { report := imgSentinel, images := []
      stat := { initImgStat with error := EField.msg apiKeyMsgImg }
      liveCalls := 0 }
  else
    match env.serp with
    | SerpResponse.reqException m =>
        { report := imgSentinel, images := []
          stat := { initImgStat with
            error := EField.msg ("Network error when calling SerpAPI: " ++ m) }
          liveCalls := 1 }
    | SerpResponse.keyException m =>
        { report := imgSentinel, images := []
          stat := { initImgStat with
            error := EField.msg ("Unexpected response structure from SerpAPI: " ++ m) }
          liveCalls := 1 }
    | SerpResponse.otherException m =>
        { report := imgSentinel, images := []
          stat := { initImgStat with
            error := EField.msg ("Unexpected error during image search: " ++ m) }
          liveCalls := 1 }
    | SerpResponse.http status body metaStatus metaError vmatches =>
        if status ≠ 200 then
          { report := imgSentinel, images := []
            stat := { initImgStat with
              error := EField.msg ("SerpAPI returned status code " ++ toString status ++ ": " ++ body) }
            liveCalls := 1 }
        else if metaStatus ≠ "Success" then
          { report := imgSentinel, images := []
            stat := { initImgStat with
              error := EField.msg ("Search failed with status: " ++ metaStatus
                ++ (match metaError with
                    | some e => " - " ++ e
                    | none => "")) }
            liveCalls := 1 }
        else if vmatches.isEmpty then
          { report := imgNoResults, images := []
            stat := initImgStat
            liveCalls := 1 }
        else
          let sr := vmatches.take top_k
          let body := liveLoop env.fetch 1 sr
          let succ := decide (0 < body.2.length)
          { report := if succ then imgPreamble ++ body.1 else imgSentinel
            images := body.2
            stat := { success := succ, num_images := body.2.length
                      num_results := sr.length, error := EField.absent
                      source := none }
            liveCalls := 1 }

/-- `call_image_search(image_url, top_k, search_type, data_id,
data_source)`.  `search_type` only parameterizes the provider request and
is absorbed into the environment's `serp` response.  When `image_url` is
not a valid HTTP(S) URL: with a truthy `data_id` the cache is consulted
and — on a miss — control falls through to the live branch; with no
truthy `data_id` the request fails immediately. -/
def call_image_search (env : ImgEnv) (image_url : String) (top_k : Nat)
    (data_id : Option String) (data_source : Option String) : ImgResult :=
  if isHttpUrl image_url then liveBranch env top_k
  else
    match data_id with
    | some did =>
        if did ≠ "" then
          match (loadCache env (splitOf data_source)).lookup did with
          | some entry => resolveFromCache env.fetch entry top_k
          | none => liveBranch env top_k
        else
          { report := imgSentinel, images := []
            stat := { initImgStat with error := EField.msg noIdMsg }
            liveCalls := 0 }
    | none =>
        { report := imgSentinel, images := []
          stat := { initImgStat with error := EField.msg noIdMsg }
          liveCalls := 0 }

/-! ### Text search (`text_search.py`) -/

/-- `JINA_BASE_URL`. -/
def JINA_BASE_URL : String := "https://r.jina.ai/"

/-- `DEFAULT_TOP_K` (same value in both source files). -/
def DEFAULT_TOP_K : Nat := 3

/-- `max_chars` inside `generate_summary_async`. -/
def maxChars : Nat := 20000

/-- Ghost record of one outbound provider call of the text pipeline. -/
inductive TCall where
  | serp
  | jina (url : String)
  | llm
deriving DecidableEq

/-- The text tool-stat dictionary
`{"success": ..., "num_results": ..., "error": ...}`. -/
structure TxtStat where
  success : Bool
  num_results : Nat
  error : EField
deriving DecidableEq

/-- Result of `async_text_search`: the report string, the tool-stat dict,
and (ghost instrumentation) the outbound provider calls, recorded in rank
order; the theorems only use their counts, which the concurrent schedule
cannot change. -/
structure TxtResult where
  report : String
  stat : TxtStat
  calls : List TCall
deriving DecidableEq

/-- Environment for the text pipeline: the three credentials, the link
list produced by `perform_search_async` (that helper returns `[]` on any
provider failure), the Jina Reader oracle keyed by the full request URL
(`""` = failed/empty fetch), and the OpenRouter chat oracle on the
role/content message list (`none` = API failure). -/
structure TxtEnv where
  serpKey : String
  jinaKey : String
  openrouterKey : String
  searchLinks : List String
  jinaFetch : String → String
  llm : List (String × String) → Option String

/-- `fetch_webpage_text_async`: GET `JINA_BASE_URL + url`. -/
def fetch_webpage_text (env : TxtEnv) (url : String) : String :=
  env.jinaFetch (JINA_BASE_URL ++ url)

def summaryInstruction : String :=
  "You are an expert information summarizer. Given the user\x27s query and the webpage content, generate a concise and relevant summary that addresses the query. Return only the summary text without any additional commentary."

def summarySystemMsg : String :=
  "You are a helpful assistant that summarizes web content."

/-- Python `str.strip()`: remove leading and trailing whitespace,
character by character. -/
def pyStrip (s : String) : String :=
  String.mk (((s.data.dropWhile Char.isWhitespace).reverse.dropWhile
    Char.isWhitespace).reverse)

/-- `generate_summary_async`: truncate the page text to `max_chars`, build
the fixed two-message template, call OpenRouter; a falsy response yields
`""`, otherwise the stripped content. -/
def generate_summary (env : TxtEnv) (user_query page_text : String) : String :=
  let truncated := if page_text.length > maxChars then page_text.take maxChars else page_text
  let messages := [("system", summarySystemMsg),
    ("user", "User Query: " ++ user_query ++ "\n\nWebpage Content:\n"
      ++ truncated ++ "\n\n" ++ summaryInstruction)]
  match env.llm messages with
  | some r => if r != "" then pyStrip r else ""
  | none => ""

/-- `process_url_async`: fetch the page text (empty text drops the link),
then summarize (empty summary drops the link); on success return
`(summary, url)`. -/
def process_url (env : TxtEnv) (url user_query : String) : Option (String × String) :=
  let page_text := fetch_webpage_text env url
  if page_text = "" then none
  else
    let summary := generate_summary env user_query page_text
    if summary = "" then none
    else some (summary, url)

/-- Ghost call log of one per-link work unit: one Jina fetch, plus one
OpenRouter call when the fetch produced text. -/
def urlCalls (env : TxtEnv) (url : String) : List TCall :=
  TCall.jina url :: (if fetch_webpage_text env url != "" then [TCall.llm] else [])

/-- Completion events of a batch of already-determined task results under
a completion schedule `sched` (the order in which the event loop sees the
tasks finish): entry `(i, v)` records task `i` completing with value `v`. -/
def schedEvents (tasks : List α) (sched : List Nat) : List (Nat × α) :=
  sched.filterMap (fun i => (tasks.get? i).map (fun v => (i, v)))

/-- Look up the completion event of task `i` in an event list. -/
def findEvent {α : Type} (i : Nat) : List (Nat × α) → Option α
  | [] => none
  | (j, v) :: rest => if i = j then some v else findEvent i rest

/-- `asyncio.gather`: collect the completed tasks back in the order of the
original sequence, regardless of the completion schedule. -/
def gather (tasks : List α) (sched : List Nat) : List α :=
  (List.range tasks.length).filterMap (fun i => findEvent i (schedEvents tasks sched))

/-- `sched` is a completion schedule in which all of the `n` dispatched
tasks eventually finish (the join/barrier semantics of `gather`). -/
def Covers (sched : List Nat) (n : Nat) : Prop :=
  ∀ i, i < n → i ∈ sched

def txtPreamble : String :=
  "[Text Search Results] Below are the text summaries of the most relevant webpages related to your query, ranked in descending order of relevance:\n"

def txtSentinel : String :=
  "[Text Search Results] There is an error encountered in performing search. Please reason with your own capaibilities."

def txtNoResults : String :=
  "[Text Search Results] No relevant results found for the provided query."

def serpKeyMsg : String :=
  "SERPAPI_API_KEY is not set. Please set it as an environment variable."

def jinaKeyMsg : String :=
  "JINA_API_KEY is not set. Please set it as an environment variable."

def openrouterKeyMsg : String :=
  "OPENROUTER_API_KEY is not set. Please set it as an environment variable."

/-- The result-formatting loop: `f"{idx}. ({url}) {summary}\n"` for each
retained `(summary, url)`, 1-based. -/
def formatLoop : Nat → List (String × String) → String
  | _, [] => ""
  | idx, (summary, url) :: rest =>
      toString idx ++ ". (" ++ url ++ ") " ++ summary ++ "\n" ++ formatLoop (idx + 1) rest

/-- `async_text_search(text_query, top_k)`, additionally parameterized by
the completion schedule of the fan-out stage: credential checks, the
search stage, truncation to `top_k`, the concurrent per-link stage joined
by `gather`, and collation of the non-`None` results. -/
def async_text_search (env : TxtEnv) (text_query : String) (top_k : Nat)
    (sched : List Nat) : TxtResult :=
  if keyMissing env.serpKey then
    { report := txtSentinel
      stat := { success := false, num_results := 0, error := EField.msg serpKeyMsg }
      calls := [] }
  else if keyMissing env.jinaKey then
    { report := txtSentinel
      stat := { success := false, num_results := 0, error := EField.msg jinaKeyMsg }
      calls := [] }
  else if keyMissing env.openrouterKey then
    { report := txtSentinel
      stat := { success := false, num_results := 0, error := EField.msg openrouterKeyMsg }
      calls := [] }
  else if env.searchLinks.isEmpty then
    { report := txtNoResults
      stat := { success := false, num_results := 0, error := EField.null }
      calls := [TCall.serp] }
  else
    let search_urls := env.searchLinks.take top_k
    let url_tasks := search_urls.map (fun u => process_url env u text_query)
    let url_results := gather url_tasks sched
    let valid := url_results.filterMap id
    let calls := TCall.serp :: (search_urls.map (urlCalls env)).flatten
    if valid.isEmpty then
      { report := txtSentinel
        stat := { success := false, num_results := 0, error := EField.null }
        calls := calls }
    else
      { report := txtPreamble ++ formatLoop 1 valid
        stat := { success := true, num_results := valid.length, error := EField.null }
        calls := calls }

/-- `call_text_search(text_query)`: the exposed entry point runs the async
routine with the fixed `DEFAULT_TOP_K` (its event-loop fallback plumbing
does not change the computed result). -/
def call_text_search (env : TxtEnv) (text_query : String) (sched : List Nat) : TxtResult :=
  async_text_search env text_query DEFAULT_TOP_K sched

/-! ### Properties of the `gather` model -/

theorem findEvent_schedEvents_none {α : Type} (tasks : List α) (i : Nat)
    (h : tasks.get? i = none) (sched : List Nat) :
    findEvent i (schedEvents tasks sched) = none := by
  induction sched with
  | nil => rfl
  | cons j rest ih =>
    show findEvent i (List.filterMap _ (j :: rest)) = none
    rw [List.filterMap_cons]
    cases hj : tasks.get? j with
    | none => exact ih
    | some w =>
      have hij : ¬ i = j := by
        intro hEq
        rw [hEq, hj] at h
        exact Option.noConfusion h
      show (if i = j then some w else findEvent i (schedEvents tasks rest)) = none
      rw [if_neg hij]
      exact ih

theorem findEvent_schedEvents_mem {α : Type} (tasks : List α) (i : Nat)
    (sched : List Nat) (h : i ∈ sched) :
    findEvent i (schedEvents tasks sched) = tasks.get? i := by
  induction sched with
  | nil => exact absurd h (List.not_mem_nil i)
  | cons j rest ih =>
    show findEvent i (List.filterMap _ (j :: rest)) = tasks.get? i
    rw [List.filterMap_cons]
    by_cases hij : i = j
    · subst hij
      cases hj : tasks.get? i with
      | none => exact findEvent_schedEvents_none tasks i hj rest
      | some w =>
          show (if i = i then some w else _) = some w
          rw [if_pos rfl]
    · have hmem : i ∈ rest := by
        rcases List.mem_cons.mp h with h1 | h1
        · exact absurd h1 hij
        · exact h1
      cases hj : tasks.get? j with
      | none => exact ih hmem
      | some w =>
          show (if i = j then some w else findEvent i (schedEvents tasks rest)) = tasks.get? i
          rw [if_neg hij]
          exact ih hmem

theorem filterMap_get?_range {α : Type} (l : List α) :
    (List.range l.length).filterMap l.get? = l := by
  induction l with
  | nil => rfl
  | cons a t ih =>
    rw [List.length_cons, List.range_succ_eq_map, List.filterMap_cons,
      List.filterMap_map]
    have h0 : (a :: t).get? 0 = some a := rfl
    have hs : ((a :: t).get? ∘ Nat.succ) = t.get? := by
      funext i
      rfl
    rw [h0, hs, ih]

/-- When every dispatched task completes, `gather` returns exactly the
task results in their original order, whatever the completion order. -/
theorem gather_covers {α : Type} (tasks : List α) (sched : List Nat)
    (h : Covers sched tasks.length) : gather tasks sched = tasks := by
  unfold gather
  have hcong : ∀ i ∈ List.range tasks.length,
      findEvent i (schedEvents tasks sched) = tasks.get? i := by
    intro i hi
    exact findEvent_schedEvents_mem tasks i sched (h i (List.mem_range.mp hi))
  rw [List.filterMap_congr hcong]
  exact filterMap_get?_range tasks

/-! ### Shared bounds on the per-entry loops -/

theorem cacheLine_images_le (fetch : String → Option Img) (idx : Nat)
    (r : CacheRef) (t : String) : (cacheLine fetch idx r t).2.length ≤ 1 := by
  unfold cacheLine
  cases r with
  | img i => exact Nat.le_refl 1
  | url s =>
    by_cases hs : isHttpUrl s
    · simp only [hs, if_true]
      cases fetch s with
      | some i => exact Nat.le_refl 1
      | none => exact Nat.zero_le 1
    · simp only [hs, if_false]
      exact Nat.zero_le 1
  | other => exact Nat.zero_le 1

theorem cacheLoop_images_le (fetch : String → Option Img) :
    ∀ (idx : Nat) (l : List (CacheRef × String)),
      (cacheLoop fetch idx l).2.length ≤ l.length := by
  intro idx l
  induction l generalizing idx with
  | nil => exact Nat.zero_le 0
  | cons p rest ih =>
    show ((cacheLine fetch idx p.1 p.2).2 ++ (cacheLoop fetch (idx + 1) rest).2).length
        ≤ rest.length + 1
    rw [List.length_append]
    have h1 := cacheLine_images_le fetch idx p.1 p.2
    have h2 := ih (idx + 1)
    omega

theorem liveLine_images_le (fetch : String → Option Img) (idx : Nat)
    (m : SerpMatch) : (liveLine fetch idx m).2.length ≤ 1 := by
  unfold liveLine
  by_cases ht : (if m.thumbnail != "" then m.thumbnail else m.image) != ""
  · simp only [ht, if_true]
    cases fetch (if m.thumbnail != "" then m.thumbnail else m.image) with
    | some i => exact Nat.le_refl 1
    | none => exact Nat.zero_le 1
  · simp only [ht, if_false]
    exact Nat.zero_le 1

theorem liveLoop_images_le (fetch : String → Option Img) :
    ∀ (idx : Nat) (l : List SerpMatch),
      (liveLoop fetch idx l).2.length ≤ l.length := by
  intro idx l
  induction l generalizing idx with
  | nil => exact Nat.zero_le 0
  | cons m rest ih =>
    show ((liveLine fetch idx m).2 ++ (liveLoop fetch (idx + 1) rest).2).length
        ≤ rest.length + 1
    rw [List.length_append]
    have h1 := liveLine_images_le fetch idx m
    have h2 := ih (idx + 1)
    omega

theorem liveBranch_num_results_le (env : ImgEnv) (k : Nat) :
    (liveBranch env k).stat.num_results ≤ k ∧ (liveBranch env k).images.length ≤ k := by
  unfold liveBranch
  split
  · exact ⟨Nat.zero_le k, Nat.zero_le k⟩
  split
  · exact ⟨Nat.zero_le k, Nat.zero_le k⟩
  · exact ⟨Nat.zero_le k, Nat.zero_le k⟩
  · exact ⟨Nat.zero_le k, Nat.zero_le k⟩
  split
  · exact ⟨Nat.zero_le k, Nat.zero_le k⟩
  split
  · exact ⟨Nat.zero_le k, Nat.zero_le k⟩
  split
  · exact ⟨Nat.zero_le k, Nat.zero_le k⟩
  · constructor
    · exact List.length_take_le ..
    · exact Nat.le_trans (liveLoop_images_le env.fetch 1 _) (List.length_take_le ..)

theorem resolveFromCache_num_results_le (fetch : String → Option Img)
    (entry : CacheEntry) (k : Nat) :
    (resolveFromCache fetch entry k).stat.num_results ≤ k ∧
    (resolveFromCache fetch entry k).images.length ≤ k := by
  constructor
  · exact List.length_take_le k entry.refs
  · refine Nat.le_trans (cacheLoop_images_le fetch 1 _) ?_
    refine Nat.le_trans (Nat.le_of_eq (List.length_zip ..)) ?_
    exact Nat.le_trans (Nat.min_le_left _ _) (List.length_take_le k entry.refs)

theorem gather_length_le {α : Type} (tasks : List α) (sched : List Nat) :
    (gather tasks sched).length ≤ tasks.length := by
  unfold gather
  refine Nat.le_trans (List.length_filterMap_le _ _) ?_
  rw [List.length_range]

theorem valid_length_le (env : TxtEnv) (text_query : String) (top_k : Nat)
    (sched : List Nat) :
    ((gather ((env.searchLinks.take top_k).map (fun u => process_url env u text_query))
        sched).filterMap id).length ≤ top_k := by
  refine Nat.le_trans (List.length_filterMap_le _ _) ?_
  refine Nat.le_trans (gather_length_le _ _) ?_
  rw [List.length_map]
  exact List.length_take_le ..

/-- C8: for every request — image variant, whether resolved from cache or
live, and text variant — the number of ranked results returned (the
`num_results` count, and for images also the returned image list) never
exceeds the request's `top_k`. -/
theorem c8_results_within_topk :
    (∀ (env : ImgEnv) (image_url : String) (top_k : Nat)
        (data_id data_source : Option String),
      (call_image_search env image_url top_k data_id data_source).stat.num_results ≤ top_k ∧
      (call_image_search env image_url top_k data_id data_source).images.length ≤ top_k) ∧
    (∀ (env : TxtEnv) (text_query : String) (top_k : Nat) (sched : List Nat),
      (async_text_search env text_query top_k sched).stat.num_results ≤ top_k) := by
  constructor
  · intro env image_url top_k data_id data_source
    unfold call_image_search
    split
    · exact liveBranch_num_results_le env top_k
    split
    · split
      · split
        · exact resolveFromCache_num_results_le env.fetch _ top_k
        · exact liveBranch_num_results_le env top_k
      · exact ⟨Nat.zero_le _, Nat.zero_le _⟩
    · exact ⟨Nat.zero_le _, Nat.zero_le _⟩
  · intro env text_query top_k sched
    unfold async_text_search
    split
    · exact Nat.zero_le _
    split
    · exact Nat.zero_le _
    split
    · exact Nat.zero_le _
    split
    · exact Nat.zero_le _
    · dsimp only
      split
      · exact Nat.zero_le _
      · exact valid_length_le env text_query top_k sched

/-- C9: for a cache entry with 2 stored titles and 4 image references and
`top_k = 3`, the resolver uses the first 3 image references, keeps the
stored titles for entries 1 and 2, and gives exactly the remaining third
entry a synthesized placeholder title of the form `"Result N"` instead of
failing (the pad list is numbered from 1, so the placeholder is
`"Result 1"`); the resolver then processes exactly these 3 pairs. -/
theorem c9_title_padding (t1 t2 : String) (r1 r2 r3 r4 : CacheRef)
    (fetch : String → Option Img) :
    (CacheEntry.mk [t1, t2] [r1, r2, r3, r4]).refs.take 3 = [r1, r2, r3] ∧
    titlesToProcess [t1, t2] 3 3 = [t1, t2, "Result 1"] ∧
    "Result 1" = "Result " ++ toString 1 ∧
    [r1, r2, r3].zip (titlesToProcess [t1, t2] 3 3) =
      [(r1, t1), (r2, t2), (r3, "Result 1")] ∧
    (resolveFromCache fetch (CacheEntry.mk [t1, t2] [r1, r2, r3, r4]) 3).stat.num_results = 3 := by
  exact ⟨rfl, rfl, by decide, rfl, rfl⟩

/-! ### Path lemmas for `call_image_search` -/

theorem call_live (env : ImgEnv) (image_url : String) (top_k : Nat)
    (data_id data_source : Option String) (hurl : isHttpUrl image_url = true) :
    call_image_search env image_url top_k data_id data_source = liveBranch env top_k := by
  unfold call_image_search
  rw [if_pos hurl]

theorem call_cache_hit (env : ImgEnv) (image_url : String) (top_k : Nat)
    (did : String) (data_source : Option String) (entry : CacheEntry)
    (hurl : isHttpUrl image_url = false) (hdid : did ≠ "")
    (hlook : (loadCache env (splitOf data_source)).lookup did = some entry) :
    call_image_search env image_url top_k (some did) data_source =
      resolveFromCache env.fetch entry top_k := by
  unfold call_image_search
  rw [if_neg (by simp [hurl])]
  show (if did ≠ "" then _ else _) = _
  rw [if_pos hdid, hlook]

theorem call_cache_miss (env : ImgEnv) (image_url : String) (top_k : Nat)
    (did : String) (data_source : Option String)
    (hurl : isHttpUrl image_url = false) (hdid : did ≠ "")
    (hlook : (loadCache env (splitOf data_source)).lookup did = none) :
    call_image_search env image_url top_k (some did) data_source =
      liveBranch env top_k := by
  unfold call_image_search
  rw [if_neg (by simp [hurl])]
  show (if did ≠ "" then _ else _) = _
  rw [if_pos hdid, hlook]

theorem resolveFromCache_normalize (fetch : String → Option Img)
    (entry : CacheEntry) (top_k : Nat) :
    ((resolveFromCache fetch entry top_k).stat.success = true ↔
        0 < (resolveFromCache fetch entry top_k).images.length) ∧
    (resolveFromCache fetch entry top_k).stat.num_images =
      (resolveFromCache fetch entry top_k).images.length ∧
    ((resolveFromCache fetch entry top_k).images.length = 0 →
      (resolveFromCache fetch entry top_k).report = imgSentinel) := by
  unfold resolveFromCache
  refine ⟨by simp, rfl, ?_⟩
  intro h
  dsimp only at h ⊢
  rw [h]
  rfl

theorem liveBranch_normalize (env : ImgEnv) (top_k : Nat) (body : String)
    (metaError : Option String) (vmatches : List SerpMatch)
    (hkey : keyMissing env.serpapi_api_key = false)
    (hserp : env.serp = SerpResponse.http 200 body "Success" metaError vmatches)
    (hne : vmatches ≠ []) :
    ((liveBranch env top_k).stat.success = true ↔
        0 < (liveBranch env top_k).images.length) ∧
    (liveBranch env top_k).stat.num_images = (liveBranch env top_k).images.length ∧
    ((liveBranch env top_k).images.length = 0 →
      (liveBranch env top_k).report = imgSentinel) := by
  unfold liveBranch
  rw [if_neg (by simp [hkey]), hserp]
  dsimp only
  rw [if_neg (by decide : ¬ (200 : Nat) ≠ 200),
    if_neg (by decide : ¬ "Success" ≠ "Success")]
  cases vmatches with
  | nil => exact absurd rfl hne
  | cons m rest =>
    rw [if_neg (by simp : ¬ ((m :: rest).isEmpty = true))]
    refine ⟨by simp, rfl, ?_⟩
    intro h
    dsimp only at h ⊢
    rw [h]
    rfl

/-! ### Concrete environments used by witnesses and counterexamples -/

/-- A live match whose thumbnail URL downloads successfully under
`envLiveOk.fetch`. -/
def mThumb : SerpMatch :=
  { thumbnail := "http://t", image := "", title := "T", link := "", source := "" }

/-- An environment with one cached test-split entry holding an
already-decoded image. -/
def envCacheHit : ImgEnv :=
  { serpapi_api_key := ""
    fetch := fun _ => some 7
    serp := SerpResponse.reqException "boom"
    cacheTrain := []
    cacheTest := [("id1", CacheEntry.mk ["T1"] [CacheRef.img 5])] }

/-- An environment with an empty cache, a configured API key and a
successful live response with one downloadable match. -/
def envLiveOk : ImgEnv :=
  { serpapi_api_key := "k"
    fetch := fun s => if s = "http://t" then some 9 else none
    serp := SerpResponse.http 200 "" "Success" none [mThumb]
    cacheTrain := []
    cacheTest := [] }

/-- C3: whenever an image request reaches the Normalize stage — a cache
hit, or a live response with HTTP 200, metadata status `Success` and a
non-empty match list — the final status has `success = true` iff at least
one image was successfully decoded, `num_images` is exactly the decoded
count, and a zero count replaces the report by the generic failure
sentinel even though titles/links may have been collected. -/
theorem c3_success_iff_images :
    (∀ (env : ImgEnv) (image_url : String) (top_k : Nat) (did : String)
        (data_source : Option String) (entry : CacheEntry),
      isHttpUrl image_url = false → did ≠ "" →
      (loadCache env (splitOf data_source)).lookup did = some entry →
      (((call_image_search env image_url top_k (some did) data_source).stat.success = true ↔
          0 < (call_image_search env image_url top_k (some did) data_source).images.length) ∧
        (call_image_search env image_url top_k (some did) data_source).stat.num_images =
          (call_image_search env image_url top_k (some did) data_source).images.length ∧
        ((call_image_search env image_url top_k (some did) data_source).images.length = 0 →
          (call_image_search env image_url top_k (some did) data_source).report = imgSentinel))) ∧
    (∀ (env : ImgEnv) (image_url : String) (top_k : Nat)
        (data_id data_source : Option String) (body : String)
        (metaError : Option String) (vmatches : List SerpMatch),
      isHttpUrl image_url = true →
      keyMissing env.serpapi_api_key = false →
      env.serp = SerpResponse.http 200 body "Success" metaError vmatches →
      vmatches ≠ [] →
      (((call_image_search env image_url top_k data_id data_source).stat.success = true ↔
          0 < (call_image_search env image_url top_k data_id data_source).images.length) ∧
        (call_image_search env image_url top_k data_id data_source).stat.num_images =
          (call_image_search env image_url top_k data_id data_source).images.length ∧
        ((call_image_search env image_url top_k data_id data_source).images.length = 0 →
          (call_image_search env image_url top_k data_id data_source).report = imgSentinel))) := by
  constructor
  · intro env image_url top_k did ds entry hurl hdid hlook
    rw [call_cache_hit env image_url top_k did ds entry hurl hdid hlook]
    exact resolveFromCache_normalize env.fetch entry top_k
  · intro env image_url top_k di ds body me vm hurl hkey hserp hne
    rw [call_live env image_url top_k di ds hurl]
    exact liveBranch_normalize env top_k body me vm hkey hserp hne

/-- Witness for C3 at concrete cache-hit and live inputs. -/
theorem c3_success_iff_images_witness :
    (((call_image_search envCacheHit "" 3 (some "id1") none).stat.success = true ↔
        0 < (call_image_search envCacheHit "" 3 (some "id1") none).images.length) ∧
      ((call_image_search envLiveOk "http://q" 2 none none).stat.success = true ↔
        0 < (call_image_search envLiveOk "http://q" 2 none none).images.length)) :=
  ⟨(c3_success_iff_images.1 envCacheHit "" 3 "id1" none
      (CacheEntry.mk ["T1"] [CacheRef.img 5]) (by decide) (by decide) (by decide)).1,
    (c3_success_iff_images.2 envLiveOk "http://q" 2 none none "" none [mThumb]
      (by decide) (by decide) rfl (List.cons_ne_nil _ _)).1⟩

/-! ### Field lemmas for the live branch -/

theorem liveBranch_source_none (env : ImgEnv) (top_k : Nat) :
    (liveBranch env top_k).stat.source = none := by
  unfold liveBranch
  split
  · rfl
  split
  · rfl
  · rfl
  · rfl
  split
  · rfl
  split
  · rfl
  split
  · rfl
  · rfl

theorem liveBranch_liveCalls_one (env : ImgEnv) (top_k : Nat)
    (hkey : keyMissing env.serpapi_api_key = false) :
    (liveBranch env top_k).liveCalls = 1 := by
  unfold liveBranch
  rw [if_neg (by simp [hkey])]
  split
  · rfl
  · rfl
  · rfl
  split
  · rfl
  split
  · rfl
  split
  · rfl
  · rfl

theorem liveBranch_keyMissing_eq (env : ImgEnv) (top_k : Nat)
    (hkey : keyMissing env.serpapi_api_key = true) :
    liveBranch env top_k =
      { report := imgSentinel, images := []
        stat := { initImgStat with error := EField.msg apiKeyMsgImg }
        liveCalls := 0 } := by
  unfold liveBranch
  rw [if_pos hkey]

theorem liveBranch_empty_eq (env : ImgEnv) (top_k : Nat) (body : String)
    (metaError : Option String)
    (hkey : keyMissing env.serpapi_api_key = false)
    (hserp : env.serp = SerpResponse.http 200 body "Success" metaError []) :
    liveBranch env top_k =
      { report := imgNoResults, images := [], stat := initImgStat, liveCalls := 1 } := by
  unfold liveBranch
  rw [if_neg (by simp [hkey]), hserp]
  dsimp only
  rw [if_neg (by decide : ¬ (200 : Nat) ≠ 200),
    if_neg (by decide : ¬ "Success" ≠ "Success")]
  rfl

theorem liveBranch_httpError_eq (env : ImgEnv) (top_k : Nat) (status : Nat)
    (body metaStatus : String) (metaError : Option String)
    (vmatches : List SerpMatch)
    (hkey : keyMissing env.serpapi_api_key = false)
    (hserp : env.serp = SerpResponse.http status body metaStatus metaError vmatches)
    (hstatus : status ≠ 200) :
    liveBranch env top_k =
      { report := imgSentinel, images := []
        stat := { initImgStat with
          error := EField.msg ("SerpAPI returned status code " ++ toString status ++ ": " ++ body) }
        liveCalls := 1 } := by
  unfold liveBranch
  rw [if_neg (by simp [hkey]), hserp]
  dsimp only
  rw [if_pos hstatus]

theorem liveBranch_normalize_error_absent (env : ImgEnv) (top_k : Nat)
    (body : String) (metaError : Option String) (vmatches : List SerpMatch)
    (hkey : keyMissing env.serpapi_api_key = false)
    (hserp : env.serp = SerpResponse.http 200 body "Success" metaError vmatches)
    (hne : vmatches ≠ []) :
    (liveBranch env top_k).stat.error = EField.absent := by
  unfold liveBranch
  rw [if_neg (by simp [hkey]), hserp]
  dsimp only
  rw [if_neg (by decide : ¬ (200 : Nat) ≠ 200),
    if_neg (by decide : ¬ "Success" ≠ "Success")]
  cases vmatches with
  | nil => exact absurd rfl hne
  | cons m rest =>
    rw [if_neg (by simp : ¬ ((m :: rest).isEmpty = true))]

/-- C4 counterexample: a live-path request that resolves entries and
succeeds, yet whose returned status carries no origin field at all
(`source = none`, in particular not `some "live"`), refuting the claim
that every live-path status is tagged `origin = live`. -/
theorem c4_origin_cex :
    (call_image_search envLiveOk "http://q" 2 none none).stat.success = true ∧
    (call_image_search envLiveOk "http://q" 2 none none).stat.source = none ∧
    (call_image_search envLiveOk "http://q" 2 none none).stat.source ≠ some "live" := by
  decide

/-- C4 (amended): a status produced from a cache hit is tagged
`source = "cache"`, while every status produced on the live path carries
no origin/source field at all. -/
theorem c4_origin_tagging :
    (∀ (env : ImgEnv) (image_url : String) (top_k : Nat) (did : String)
        (data_source : Option String) (entry : CacheEntry),
      isHttpUrl image_url = false → did ≠ "" →
      (loadCache env (splitOf data_source)).lookup did = some entry →
      (call_image_search env image_url top_k (some did) data_source).stat.source =
        some "cache") ∧
    (∀ (env : ImgEnv) (image_url : String) (top_k : Nat)
        (data_id data_source : Option String),
      isHttpUrl image_url = true →
      (call_image_search env image_url top_k data_id data_source).stat.source = none) := by
  constructor
  · intro env image_url top_k did ds entry hurl hdid hlook
    rw [call_cache_hit env image_url top_k did ds entry hurl hdid hlook]
    rfl
  · intro env image_url top_k di ds hurl
    rw [call_live env image_url top_k di ds hurl]
    exact liveBranch_source_none env top_k

/-- Witness for C4 (amended) at concrete cache-hit and live inputs. -/
theorem c4_origin_tagging_witness :
    (call_image_search envCacheHit "" 3 (some "id1") none).stat.source = some "cache" ∧
    (call_image_search envLiveOk "http://q" 2 none none).stat.source = none :=
  ⟨c4_origin_tagging.1 envCacheHit "" 3 "id1" none
      (CacheEntry.mk ["T1"] [CacheRef.img 5]) (by decide) (by decide) (by decide),
    c4_origin_tagging.2 envLiveOk "http://q" 2 none none (by decide)⟩

/-- An environment whose live response is HTTP 200, `Success`, with an
empty `visual_matches` list (a clean empty provider response). -/
def envLiveEmpty : ImgEnv :=
  { serpapi_api_key := "k"
    fetch := fun _ => none
    serp := SerpResponse.http 200 "" "Success" none []
    cacheTrain := []
    cacheTest := [] }

/-- C10 counterexample: the clean empty-provider-response path is a
failure path (`success = false`) that does not set an error message — it
leaves the `error` key present with the explicit value `None` — refuting
the claim that every failure path other than the zero-decoded-images one
sets an error message. -/
theorem c10_error_field_cex :
    (call_image_search envLiveEmpty "http://q" 3 none none).stat.success = false ∧
    (call_image_search envLiveEmpty "http://q" 3 none none).stat.error = EField.null := by
  decide

/-- C10 (amended): a request that reaches the Normalize stage (cache hit
or live response with matches) returns a status with no `error` key at
all — in particular in the zero-decoded-images failure case — while the
clean empty-provider-response failure leaves `error` explicitly null,
and the other failure paths (no URL and no cache key; missing API key;
provider HTTP error) set an error message. -/
theorem c10_error_key :
    (∀ (env : ImgEnv) (image_url : String) (top_k : Nat) (did : String)
        (data_source : Option String) (entry : CacheEntry),
      isHttpUrl image_url = false → did ≠ "" →
      (loadCache env (splitOf data_source)).lookup did = some entry →
      (call_image_search env image_url top_k (some did) data_source).stat.error =
        EField.absent) ∧
    (∀ (env : ImgEnv) (image_url : String) (top_k : Nat)
        (data_id data_source : Option String) (body : String)
        (metaError : Option String) (vmatches : List SerpMatch),
      isHttpUrl image_url = true →
      keyMissing env.serpapi_api_key = false →
      env.serp = SerpResponse.http 200 body "Success" metaError vmatches →
      vmatches ≠ [] →
      (call_image_search env image_url top_k data_id data_source).stat.error =
        EField.absent) ∧
    (∀ (env : ImgEnv) (image_url : String) (top_k : Nat)
        (data_id data_source : Option String) (body : String)
        (metaError : Option String),
      isHttpUrl image_url = true →
      keyMissing env.serpapi_api_key = false →
      env.serp = SerpResponse.http 200 body "Success" metaError [] →
      (call_image_search env image_url top_k data_id data_source).stat.error =
          EField.null ∧
        (call_image_search env image_url top_k data_id data_source).stat.success = false) ∧
    (∀ (env : ImgEnv) (image_url : String) (top_k : Nat)
        (data_source : Option String),
      isHttpUrl image_url = false →
      (call_image_search env image_url top_k none data_source).stat.error =
        EField.msg noIdMsg) ∧
    (∀ (env : ImgEnv) (image_url : String) (top_k : Nat)
        (data_id data_source : Option String),
      isHttpUrl image_url = true →
      keyMissing env.serpapi_api_key = true →
      (call_image_search env image_url top_k data_id data_source).stat.error =
        EField.msg apiKeyMsgImg) ∧
    (∀ (env : ImgEnv) (image_url : String) (top_k : Nat)
        (data_id data_source : Option String) (status : Nat)
        (body metaStatus : String) (metaError : Option String)
        (vmatches : List SerpMatch),
      isHttpUrl image_url = true →
      keyMissing env.serpapi_api_key = false →
      env.serp = SerpResponse.http status body metaStatus metaError vmatches →
      status ≠ 200 →
      (call_image_search env image_url top_k data_id data_source).stat.error =
        EField.msg ("SerpAPI returned status code " ++ toString status ++ ": " ++ body)) := by
  refine ⟨?_, ?_, ?_, ?_, ?_, ?_⟩
  · intro env image_url top_k did ds entry hurl hdid hlook
    rw [call_cache_hit env image_url top_k did ds entry hurl hdid hlook]
    rfl
  · intro env image_url top_k di ds body me vm hurl hkey hserp hne
    rw [call_live env image_url top_k di ds hurl]
    exact liveBranch_normalize_error_absent env top_k body me vm hkey hserp hne
  · intro env image_url top_k di ds body me hurl hkey hserp
    rw [call_live env image_url top_k di ds hurl,
      liveBranch_empty_eq env top_k body me hkey hserp]
    exact ⟨rfl, rfl⟩
  · intro env image_url top_k ds hurl
    unfold call_image_search
    rw [if_neg (by simp [hurl])]
  · intro env image_url top_k di ds hurl hkey
    rw [call_live env image_url top_k di ds hurl,
      liveBranch_keyMissing_eq env top_k hkey]
  · intro env image_url top_k di ds status body ms me vm hurl hkey hserp hstatus
    rw [call_live env image_url top_k di ds hurl,
      liveBranch_httpError_eq env top_k status body ms me vm hkey hserp hstatus]

/-- Witness for C10 (amended) at concrete inputs for each path. -/
theorem c10_error_key_witness :
    (call_image_search envCacheHit "" 3 (some "id1") none).stat.error = EField.absent ∧
    (call_image_search envLiveOk "http://q" 2 none none).stat.error = EField.absent ∧
    (call_image_search envLiveEmpty "http://q" 3 none none).stat.error = EField.null ∧
    (call_image_search envCacheHit "" 3 none none).stat.error = EField.msg noIdMsg :=
  ⟨c10_error_key.1 envCacheHit "" 3 "id1" none
      (CacheEntry.mk ["T1"] [CacheRef.img 5]) (by decide) (by decide) (by decide),
    c10_error_key.2.1 envLiveOk "http://q" 2 none none "" none [mThumb]
      (by decide) (by decide) rfl (List.cons_ne_nil _ _),
    (c10_error_key.2.2.1 envLiveEmpty "http://q" 3 none none "" none
      (by decide) (by decide) rfl).1,
    c10_error_key.2.2.2.1 envCacheHit "" 3 none (by decide)⟩

/-- C1 counterexample: a cache-resolved request (no URL, `data_id`
provided) whose `data_id` is not in the loaded cache partition does NOT
terminate with `success = false` and `error = "cache miss"`: with the API
key configured, a live reverse-image-search provider call is made and the
request even succeeds. -/
theorem c1_cache_miss_cex :
    (call_image_search envLiveOk "" 3 (some "x") none).liveCalls = 1 ∧
    (call_image_search envLiveOk "" 3 (some "x") none).stat.success = true ∧
    (call_image_search envLiveOk "" 3 (some "x") none).stat.error ≠
      EField.msg "cache miss" := by
  decide

/-- C1 (amended): when `image_url` is absent/invalid and a truthy
`data_id` is not a key of the loaded cache partition, the request does
not terminate at that point; it falls through to the live branch — with
the API key unset it fails with the API-key error message, and with the
key configured exactly one live provider call is made.  No "cache miss"
error is produced. -/
theorem c1_cache_miss_fallthrough :
    ∀ (env : ImgEnv) (image_url : String) (top_k : Nat) (did : String)
      (data_source : Option String),
      isHttpUrl image_url = false → did ≠ "" →
      (loadCache env (splitOf data_source)).lookup did = none →
      (call_image_search env image_url top_k (some did) data_source =
          liveBranch env top_k) ∧
      (keyMissing env.serpapi_api_key = true →
        (call_image_search env image_url top_k (some did) data_source).stat.error =
          EField.msg apiKeyMsgImg) ∧
      (keyMissing env.serpapi_api_key = false →
        (call_image_search env image_url top_k (some did) data_source).liveCalls = 1) := by
  intro env image_url top_k did ds hurl hdid hlook
  have heq := call_cache_miss env image_url top_k did ds hurl hdid hlook
  refine ⟨heq, ?_, ?_⟩
  · intro hkey
    rw [heq, liveBranch_keyMissing_eq env top_k hkey]
  · intro hkey
    rw [heq]
    exact liveBranch_liveCalls_one env top_k hkey

/-- Witness for C1 (amended) at a concrete cache-missing input. -/
theorem c1_cache_miss_fallthrough_witness :
    (call_image_search envLiveOk "" 3 (some "x") none = liveBranch envLiveOk 3) ∧
    (keyMissing envLiveOk.serpapi_api_key = true →
      (call_image_search envLiveOk "" 3 (some "x") none).stat.error =
        EField.msg apiKeyMsgImg) ∧
    (keyMissing envLiveOk.serpapi_api_key = false →
      (call_image_search envLiveOk "" 3 (some "x") none).liveCalls = 1) :=
  c1_cache_miss_fallthrough envLiveOk "" 3 "x" none (by decide) (by decide) (by decide)

/-! ### Report-shape lemmas for failing requests -/

theorem resolveFromCache_report_fail (fetch : String → Option Img)
    (entry : CacheEntry) (top_k : Nat)
    (h : (resolveFromCache fetch entry top_k).stat.success = false) :
    (resolveFromCache fetch entry top_k).report = imgSentinel := by
  unfold resolveFromCache at h ⊢
  dsimp only at h ⊢
  rw [h]
  rfl

theorem liveBranch_report_fail (env : ImgEnv) (top_k : Nat)
    (h : (liveBranch env top_k).stat.success = false) :
    (liveBranch env top_k).report = imgSentinel ∨
    (liveBranch env top_k).report = imgNoResults := by
  unfold liveBranch at h ⊢
  revert h
  split
  · intro _; exact Or.inl rfl
  split
  · intro _; exact Or.inl rfl
  · intro _; exact Or.inl rfl
  · intro _; exact Or.inl rfl
  split
  · intro _; exact Or.inl rfl
  split
  · intro _; exact Or.inl rfl
  split
  · intro _; exact Or.inr rfl
  · intro h
    dsimp only at h ⊢
    rw [h]
    exact Or.inl rfl

theorem call_image_report_fail (env : ImgEnv) (image_url : String)
    (top_k : Nat) (data_id data_source : Option String)
    (h : (call_image_search env image_url top_k data_id data_source).stat.success = false) :
    (call_image_search env image_url top_k data_id data_source).report = imgSentinel ∨
    (call_image_search env image_url top_k data_id data_source).report = imgNoResults := by
  unfold call_image_search at h ⊢
  revert h
  split
  · exact liveBranch_report_fail env top_k
  split
  · split
    · split
      · intro h
        exact Or.inl (resolveFromCache_report_fail env.fetch _ top_k h)
      · exact liveBranch_report_fail env top_k
    · intro _; exact Or.inl rfl
  · intro _; exact Or.inl rfl

theorem async_text_report_fail (env : TxtEnv) (text_query : String)
    (top_k : Nat) (sched : List Nat)
    (h : (async_text_search env text_query top_k sched).stat.success = false) :
    (async_text_search env text_query top_k sched).report = txtSentinel ∨
    (async_text_search env text_query top_k sched).report = txtNoResults := by
  unfold async_text_search at h ⊢
  revert h
  split
  · intro _; exact Or.inl rfl
  split
  · intro _; exact Or.inl rfl
  split
  · intro _; exact Or.inl rfl
  split
  · intro _; exact Or.inr rfl
  · dsimp only
    split
    · intro _; exact Or.inl rfl
    · intro h
      exact Bool.noConfusion h

/-- The single generic sentinel failure string as the spec words it;
this definition follows the SPEC's words, for comparison with the
literals the source actually uses. -/
def claimedSentinel : String :=
  "there is an error encountered in performing search; reason with your own capabilities"

/-- The part of the two sentinel strings that is shared between the
image and text variants (everything after the bracketed prefix). -/
def sentinelSuffix : String :=
  "There is an error encountered in performing search. Please reason with your own capaibilities."

/-- A text environment with all three credentials unset. -/
def envTxtNoKeys : TxtEnv :=
  { serpKey := "", jinaKey := "", openrouterKey := ""
    searchLinks := [], jinaFetch := fun _ => "", llm := fun _ => none }

/-- C2 counterexample: two otherwise-unspecified failures — one per
variant — whose reports both differ from the spec's claimed sentinel
literal, and differ from each other (the variants do not share one
verbatim string). -/
theorem c2_sentinel_cex :
    (async_text_search envTxtNoKeys "q" 3 []).stat.success = false ∧
    (call_image_search envCacheHit "" 3 none none).stat.success = false ∧
    (async_text_search envTxtNoKeys "q" 3 []).report ≠ claimedSentinel ∧
    (call_image_search envCacheHit "" 3 none none).report ≠ claimedSentinel ∧
    (async_text_search envTxtNoKeys "q" 3 []).report ≠
      (call_image_search envCacheHit "" 3 none none).report := by
  decide

/-- The request reaches the live branch: either `image_url` is a valid
HTTP(S) URL, or it is not but a truthy `data_id` misses the loaded cache
partition (the fall-through of C1). -/
def reachesLive (env : ImgEnv) (image_url : String)
    (data_id data_source : Option String) : Prop :=
  isHttpUrl image_url = true ∨
  (isHttpUrl image_url = false ∧ ∃ did, data_id = some did ∧ did ≠ "" ∧
    (loadCache env (splitOf data_source)).lookup did = none)

/-- The live provider gives a clean empty response: key configured, HTTP
200, metadata status `Success`, and an empty `visual_matches` list. -/
def imgCleanEmpty (env : ImgEnv) : Prop :=
  keyMissing env.serpapi_api_key = false ∧
  ∃ body metaError, env.serp = SerpResponse.http 200 body "Success" metaError []

theorem liveBranch_fail_sentinel (env : ImgEnv) (top_k : Nat)
    (hnc : ¬ imgCleanEmpty env)
    (hfail : (liveBranch env top_k).stat.success = false) :
    (liveBranch env top_k).report = imgSentinel := by
  unfold liveBranch at hfail ⊢
  by_cases hkey : keyMissing env.serpapi_api_key = true
  · rw [if_pos hkey]
  · have hkf : keyMissing env.serpapi_api_key = false := by simpa using hkey
    rw [if_neg hkey] at hfail ⊢
    revert hfail
    cases hserp : env.serp with
    | reqException m => intro _; rfl
    | keyException m => intro _; rfl
    | otherException m => intro _; rfl
    | http status body metaStatus metaError vm =>
      dsimp only
      by_cases hst : status ≠ 200
      · rw [if_pos hst]
        intro _
        rfl
      · rw [if_neg hst]
        by_cases hms : metaStatus ≠ "Success"
        · rw [if_pos hms]
          intro _
          rfl
        · rw [if_neg hms]
          cases vm with
          | nil =>
            intro _
            exfalso
            apply hnc
            have h200 : status = 200 := not_ne_iff.mp hst
            have hsucc : metaStatus = "Success" := not_ne_iff.mp hms
            rw [h200, hsucc] at hserp
            exact ⟨hkf, body, metaError, hserp⟩
          | cons m rest =>
            rw [if_neg (by simp : ¬ ((m :: rest).isEmpty = true))]
            dsimp only
            intro hfail
            rw [hfail]
            rfl

theorem async_fail_sentinel (env : TxtEnv) (text_query : String)
    (top_k : Nat) (sched : List Nat)
    (hnot : ¬ (keyMissing env.serpKey = false ∧ keyMissing env.jinaKey = false ∧
      keyMissing env.openrouterKey = false ∧ env.searchLinks = []))
    (hfail : (async_text_search env text_query top_k sched).stat.success = false) :
    (async_text_search env text_query top_k sched).report = txtSentinel := by
  unfold async_text_search at hfail ⊢
  by_cases h1 : keyMissing env.serpKey = true
  · rw [if_pos h1]
  · rw [if_neg h1] at hfail ⊢
    by_cases h2 : keyMissing env.jinaKey = true
    · rw [if_pos h2]
    · rw [if_neg h2] at hfail ⊢
      by_cases h3 : keyMissing env.openrouterKey = true
      · rw [if_pos h3]
      · rw [if_neg h3] at hfail ⊢
        by_cases h4 : env.searchLinks.isEmpty = true
        · exfalso
          apply hnot
          refine ⟨by simpa using h1, by simpa using h2, by simpa using h3, ?_⟩
          cases hl : env.searchLinks with
          | nil => rfl
          | cons a l =>
            rw [hl] at h4
            exact Bool.noConfusion h4
        · rw [if_neg h4] at hfail ⊢
          dsimp only at hfail ⊢
          revert hfail
          split
          · intro _
            rfl
          · intro hfail
            exact Bool.noConfusion hfail

theorem async_clean_empty (env : TxtEnv) (text_query : String) (top_k : Nat)
    (sched : List Nat)
    (h1 : keyMissing env.serpKey = false) (h2 : keyMissing env.jinaKey = false)
    (h3 : keyMissing env.openrouterKey = false) (h4 : env.searchLinks = []) :
    async_text_search env text_query top_k sched =
      { report := txtNoResults
        stat := { success := false, num_results := 0, error := EField.null }
        calls := [TCall.serp] } := by
  unfold async_text_search
  rw [if_neg (by simp [h1]), if_neg (by simp [h2]), if_neg (by simp [h3]),
    if_pos (by rw [h4]; rfl)]

/-- C2 (amended): each variant has its own generic sentinel, identical
except for the bracketed variant prefix and distinct from its "no
relevant results" string; every failing request of either variant
returns that variant's sentinel verbatim — except exactly the clean
empty-provider-response case, which instead returns the variant's
distinguishable "no relevant results" string (and is itself reported
with `success = false`). -/
theorem c2_per_variant_sentinels :
    imgSentinel = "[Image Search Results] " ++ sentinelSuffix ∧
    txtSentinel = "[Text Search Results] " ++ sentinelSuffix ∧
    imgSentinel ≠ imgNoResults ∧
    txtSentinel ≠ txtNoResults ∧
    (∀ (env : ImgEnv) (image_url : String) (top_k : Nat)
        (data_id data_source : Option String),
      (call_image_search env image_url top_k data_id data_source).stat.success = false →
      ¬ (reachesLive env image_url data_id data_source ∧ imgCleanEmpty env) →
      (call_image_search env image_url top_k data_id data_source).report = imgSentinel) ∧
    (∀ (env : ImgEnv) (image_url : String) (top_k : Nat)
        (data_id data_source : Option String),
      reachesLive env image_url data_id data_source → imgCleanEmpty env →
      (call_image_search env image_url top_k data_id data_source).report = imgNoResults ∧
      (call_image_search env image_url top_k data_id data_source).stat.success = false) ∧
    (∀ (env : TxtEnv) (text_query : String) (top_k : Nat) (sched : List Nat),
      (async_text_search env text_query top_k sched).stat.success = false →
      ¬ (keyMissing env.serpKey = false ∧ keyMissing env.jinaKey = false ∧
        keyMissing env.openrouterKey = false ∧ env.searchLinks = []) →
      (async_text_search env text_query top_k sched).report = txtSentinel) ∧
    (∀ (env : TxtEnv) (text_query : String) (top_k : Nat) (sched : List Nat),
      keyMissing env.serpKey = false → keyMissing env.jinaKey = false →
      keyMissing env.openrouterKey = false → env.searchLinks = [] →
      (async_text_search env text_query top_k sched).report = txtNoResults ∧
      (async_text_search env text_query top_k sched).stat.success = false) := by
  refine ⟨by decide, by decide, by decide, by decide, ?_, ?_, ?_, ?_⟩
  · intro env image_url top_k di ds hfail hnot
    by_cases hurl : isHttpUrl image_url = true
    · rw [call_live env image_url top_k di ds hurl] at hfail ⊢
      exact liveBranch_fail_sentinel env top_k
        (fun hc => hnot ⟨Or.inl hurl, hc⟩) hfail
    · have hurl' : isHttpUrl image_url = false := by simpa using hurl
      cases di with
      | none =>
        unfold call_image_search
        rw [if_neg (by simp [hurl'])]
      | some did =>
        by_cases hdid : did = ""
        · subst hdid
          unfold call_image_search
          rw [if_neg (by simp [hurl'])]
          rfl
        · cases hlook : (loadCache env (splitOf ds)).lookup did with
          | some entry =>
            rw [call_cache_hit env image_url top_k did ds entry hurl' hdid hlook]
              at hfail ⊢
            exact resolveFromCache_report_fail env.fetch entry top_k hfail
          | none =>
            rw [call_cache_miss env image_url top_k did ds hurl' hdid hlook]
              at hfail ⊢
            exact liveBranch_fail_sentinel env top_k
              (fun hc => hnot ⟨Or.inr ⟨hurl', did, rfl, hdid, hlook⟩, hc⟩) hfail
  · intro env image_url top_k di ds hreach hclean
    obtain ⟨hkey, body, me, hserp⟩ := hclean
    rcases hreach with hurl | ⟨hurl', did, hdi, hdid, hlook⟩
    · rw [call_live env image_url top_k di ds hurl,
        liveBranch_empty_eq env top_k body me hkey hserp]
      exact ⟨rfl, rfl⟩
    · subst hdi
      rw [call_cache_miss env image_url top_k did ds hurl' hdid hlook,
        liveBranch_empty_eq env top_k body me hkey hserp]
      exact ⟨rfl, rfl⟩
  · intro env text_query top_k sched hfail hnot
    exact async_fail_sentinel env text_query top_k sched hnot hfail
  · intro env text_query top_k sched h1 h2 h3 h4
    rw [async_clean_empty env text_query top_k sched h1 h2 h3 h4]
    exact ⟨rfl, rfl⟩

/-- A text environment with all credentials set and an empty provider
link list (a clean empty web-search response). -/
def envTxtEmpty : TxtEnv :=
  { serpKey := "s", jinaKey := "j", openrouterKey := "o"
    searchLinks := [], jinaFetch := fun _ => "", llm := fun _ => none }

/-- Witness for C2 (amended): a non-clean failure of each variant yields
that variant's sentinel, and a clean empty provider response of each
variant yields its "no relevant results" string. -/
theorem c2_per_variant_sentinels_witness :
    (call_image_search envCacheHit "http://bad" 3 none none).report = imgSentinel ∧
    (call_image_search envLiveEmpty "http://q" 3 none none).report = imgNoResults ∧
    (async_text_search envTxtNoKeys "q" 3 []).report = txtSentinel ∧
    (async_text_search envTxtEmpty "q" 3 []).report = txtNoResults :=
  ⟨c2_per_variant_sentinels.2.2.2.2.1 envCacheHit "http://bad" 3 none none
      (by decide)
      (fun h => by
        obtain ⟨_, _, b, me, hs⟩ := h
        exact SerpResponse.noConfusion hs),
    (c2_per_variant_sentinels.2.2.2.2.2.1 envLiveEmpty "http://q" 3 none none
      (Or.inl (by decide)) ⟨by decide, "", none, rfl⟩).1,
    c2_per_variant_sentinels.2.2.2.2.2.2.1 envTxtNoKeys "q" 3 [] (by decide)
      (fun h => absurd h.1 (by decide)),
    (c2_per_variant_sentinels.2.2.2.2.2.2.2 envTxtEmpty "q" 3 []
      (by decide) (by decide) (by decide) rfl).1⟩

/-- Predicate picking out extraction-provider (Jina) calls in the ghost
call log. -/
def isJinaCall : TCall → Bool
  | TCall.jina _ => true
  | _ => false

theorem countP_jina_flatten (env : TxtEnv) (urls : List String) :
    ((urls.map (urlCalls env)).flatten).countP isJinaCall = urls.length := by
  induction urls with
  | nil => rfl
  | cons u rest ih =>
    rw [List.map_cons, List.flatten_cons, List.countP_append, ih]
    have h1 : (urlCalls env u).countP isJinaCall = 1 := by
      unfold urlCalls
      split
      · rfl
      · rfl
    rw [h1, List.length_cons]
    omega

theorem countP_jina_serp_cons (env : TxtEnv) (urls : List String) :
    (TCall.serp :: (urls.map (urlCalls env)).flatten).countP isJinaCall =
      urls.length := by
  rw [List.countP_cons, countP_jina_flatten]
  rfl

theorem async_jina_calls_le (env : TxtEnv) (text_query : String)
    (top_k : Nat) (sched : List Nat) :
    (async_text_search env text_query top_k sched).calls.countP isJinaCall ≤ top_k := by
  unfold async_text_search
  split
  · exact Nat.zero_le top_k
  split
  · exact Nat.zero_le top_k
  split
  · exact Nat.zero_le top_k
  split
  · exact Nat.zero_le top_k
  · dsimp only
    split
    · exact Nat.le_trans (Nat.le_of_eq (countP_jina_serp_cons env _))
        (List.length_take_le ..)
    · exact Nat.le_trans (Nat.le_of_eq (countP_jina_serp_cons env _))
        (List.length_take_le ..)

/-- An environment with all credentials set and five provider links, all
of which fetch and summarize successfully. -/
def envTxt5 : TxtEnv :=
  { serpKey := "s", jinaKey := "j", openrouterKey := "o"
    searchLinks := ["u1", "u2", "u3", "u4", "u5"]
    jinaFetch := fun _ => "text"
    llm := fun _ => some "summary" }

/-- C5 counterexample: the operation exposed to the caller accepts only
the query — there is no `top_k` parameter to supply — and with five
usable provider links its fan-out stage processes exactly 3 links (the
fixed internal default), not a caller-supplied bound. -/
theorem c5_fixed_topk_cex :
    envTxt5.searchLinks.length = 5 ∧
    (call_text_search envTxt5 "q" [0, 1, 2]).stat.num_results = 3 ∧
    (call_text_search envTxt5 "q" [0, 1, 2]).calls.countP isJinaCall = 3 := by
  decide

/-- C5 (amended): the exposed `call_text_search` accepts only the query
and always runs the pipeline with the fixed default `top_k = 3`; the
internal `async_text_search` does accept a `top_k` and its fan-out stage
processes (fetches) at most `top_k` links. -/
theorem c5_exposed_topk :
    (∀ (env : TxtEnv) (text_query : String) (sched : List Nat),
      call_text_search env text_query sched =
        async_text_search env text_query DEFAULT_TOP_K sched) ∧
    DEFAULT_TOP_K = 3 ∧
    (∀ (env : TxtEnv) (text_query : String) (top_k : Nat) (sched : List Nat),
      (async_text_search env text_query top_k sched).calls.countP isJinaCall ≤ top_k) :=
  ⟨fun _ _ _ => rfl, rfl, async_jina_calls_le⟩

theorem async_collate_covers (env : TxtEnv) (text_query : String)
    (top_k : Nat) (sched : List Nat)
    (hcov : Covers sched (env.searchLinks.take top_k).length)
    (hk1 : keyMissing env.serpKey = false)
    (hk2 : keyMissing env.jinaKey = false)
    (hk3 : keyMissing env.openrouterKey = false)
    (hne : env.searchLinks.isEmpty = false) :
    async_text_search env text_query top_k sched =
      (let valid := ((env.searchLinks.take top_k).map
          (fun u => process_url env u text_query)).filterMap id
      let calls := TCall.serp :: ((env.searchLinks.take top_k).map (urlCalls env)).flatten
      if valid.isEmpty then
        { report := txtSentinel
          stat := { success := false, num_results := 0, error := EField.null }
          calls := calls }
      else
        { report := txtPreamble ++ formatLoop 1 valid
          stat := { success := true, num_results := valid.length, error := EField.null }
          calls := calls }) := by
  unfold async_text_search
  rw [if_neg (by simp [hk1]), if_neg (by simp [hk2]), if_neg (by simp [hk3]),
    if_neg (by simp [hne])]
  dsimp only
  rw [gather_covers _ sched (by rw [List.length_map]; exact hcov)]

/-- C6: the collated text report is schedule-independent and lists, in
the provider's original rank order, exactly the links that produced a
non-empty summary.  Part one: for any two completion schedules under
which all dispatched per-link tasks finish, the whole result is
identical.  Part two: for provider order `[urlA, urlB, urlC]` where
`urlB`'s extraction fails and `urlA`, `urlC` succeed, the report lists
`urlA` before `urlC`, whatever the completion order.  Part three spells
out the collated format on sample values. -/
theorem c6_rank_order :
    (∀ (env : TxtEnv) (text_query : String) (top_k : Nat) (sched1 sched2 : List Nat),
      Covers sched1 (env.searchLinks.take top_k).length →
      Covers sched2 (env.searchLinks.take top_k).length →
      async_text_search env text_query top_k sched1 =
        async_text_search env text_query top_k sched2) ∧
    (∀ (env : TxtEnv) (text_query urlA urlB urlC sa sc : String) (sched : List Nat),
      env.searchLinks = [urlA, urlB, urlC] →
      keyMissing env.serpKey = false →
      keyMissing env.jinaKey = false →
      keyMissing env.openrouterKey = false →
      Covers sched 3 →
      process_url env urlA text_query = some (sa, urlA) →
      process_url env urlB text_query = none →
      process_url env urlC text_query = some (sc, urlC) →
      ((async_text_search env text_query 3 sched).report =
          txtPreamble ++ formatLoop 1 [(sa, urlA), (sc, urlC)] ∧
        (async_text_search env text_query 3 sched).stat.success = true ∧
        (async_text_search env text_query 3 sched).stat.num_results = 2)) ∧
    formatLoop 1 [("sumA", "urlA"), ("sumC", "urlC")] =
      "1. (urlA) sumA\n2. (urlC) sumC\n" := by
  refine ⟨?_, ?_, by decide⟩
  · intro env text_query top_k sched1 sched2 h1 h2
    unfold async_text_search
    split
    · rfl
    split
    · rfl
    split
    · rfl
    split
    · rfl
    · dsimp only
      rw [gather_covers _ sched1 (by rw [List.length_map]; exact h1),
        gather_covers _ sched2 (by rw [List.length_map]; exact h2)]
  · intro env text_query uA uB uC sa sc sched hlinks hk1 hk2 hk3 hcov hA hB hC
    have hne : env.searchLinks.isEmpty = false := by rw [hlinks]; rfl
    have hcov' : Covers sched (env.searchLinks.take 3).length := by
      rw [hlinks]
      exact hcov
    rw [async_collate_covers env text_query 3 sched hcov' hk1 hk2 hk3 hne]
    rw [hlinks]
    dsimp only [List.take, List.map]
    rw [hA, hB, hC]
    dsimp only [List.filterMap_cons, List.filterMap_nil, id]
    exact ⟨rfl, rfl, rfl⟩

/-- An environment with three provider links where the middle link's
extraction fails and the other two succeed. -/
def envTxt6 : TxtEnv :=
  { serpKey := "s", jinaKey := "j", openrouterKey := "o"
    searchLinks := ["a", "b", "c"]
    jinaFetch := fun u => if u = JINA_BASE_URL ++ "b" then "" else "text"
    llm := fun _ => some "sum" }

/-- Witness for C6 at a concrete environment, with a completion schedule
in which the third link finishes first. -/
theorem c6_rank_order_witness :
    (async_text_search envTxt6 "q" 3 [2, 0, 1]).report =
        txtPreamble ++ formatLoop 1 [("sum", "a"), ("sum", "c")] ∧
      (async_text_search envTxt6 "q" 3 [2, 0, 1]).stat.success = true ∧
      (async_text_search envTxt6 "q" 3 [2, 0, 1]).stat.num_results = 2 :=
  c6_rank_order.2.1 envTxt6 "q" "a" "b" "c" "sum" "sum" [2, 0, 1] rfl
    (by decide) (by decide) (by decide)
    (by intro i hi; interval_cases i <;> decide)
    (by decide) (by decide) (by decide)

/-- C7: if any one of the three text-search credentials is unset, the
request terminates with the generic text sentinel, zero outbound provider
calls, `success = false`, and an error message naming a credential that
is indeed missing. -/
theorem c7_credential_gate :
    ∀ (env : TxtEnv) (text_query : String) (top_k : Nat) (sched : List Nat),
      (env.serpKey = "" ∨ env.jinaKey = "" ∨ env.openrouterKey = "") →
      (async_text_search env text_query top_k sched).report = txtSentinel ∧
      (async_text_search env text_query top_k sched).calls = [] ∧
      (async_text_search env text_query top_k sched).stat.success = false ∧
      (((async_text_search env text_query top_k sched).stat.error =
            EField.msg serpKeyMsg ∧ keyMissing env.serpKey = true) ∨
        ((async_text_search env text_query top_k sched).stat.error =
            EField.msg jinaKeyMsg ∧ keyMissing env.jinaKey = true) ∨
        ((async_text_search env text_query top_k sched).stat.error =
            EField.msg openrouterKeyMsg ∧ keyMissing env.openrouterKey = true)) := by
  intro env text_query top_k sched h
  by_cases hs : keyMissing env.serpKey = true
  · unfold async_text_search
    rw [if_pos hs]
    exact ⟨rfl, rfl, rfl, Or.inl ⟨rfl, hs⟩⟩
  · have hs' : keyMissing env.serpKey = false := by
      cases hb : keyMissing env.serpKey
      · rfl
      · exact absurd hb hs
    by_cases hj : keyMissing env.jinaKey = true
    · unfold async_text_search
      rw [if_neg (by simp [hs']), if_pos hj]
      exact ⟨rfl, rfl, rfl, Or.inr (Or.inl ⟨rfl, hj⟩)⟩
    · have hj' : keyMissing env.jinaKey = false := by
        cases hb : keyMissing env.jinaKey
        · rfl
        · exact absurd hb hj
      have ho : keyMissing env.openrouterKey = true := by
        rcases h with h | h | h
        · rw [h] at hs'
          exact absurd hs' (by decide)
        · rw [h] at hj'
          exact absurd hj' (by decide)
        · rw [h]
          decide
      unfold async_text_search
      rw [if_neg (by simp [hs']), if_neg (by simp [hj']), if_pos ho]
      exact ⟨rfl, rfl, rfl, Or.inr (Or.inr ⟨rfl, ho⟩)⟩

/-- A text environment where only the extraction credential is unset. -/
def envTxt7 : TxtEnv :=
  { serpKey := "s", jinaKey := "", openrouterKey := "o"
    searchLinks := ["a"], jinaFetch := fun _ => "t", llm := fun _ => some "x" }

/-- Witness for C7 at a concrete environment missing only the extraction
credential. -/
theorem c7_credential_gate_witness :
    (async_text_search envTxt7 "q" 3 []).report = txtSentinel ∧
    (async_text_search envTxt7 "q" 3 []).calls = [] ∧
    (async_text_search envTxt7 "q" 3 []).stat.success = false ∧
    (((async_text_search envTxt7 "q" 3 []).stat.error =
        EField.msg serpKeyMsg ∧ keyMissing envTxt7.serpKey = true) ∨
      ((async_text_search envTxt7 "q" 3 []).stat.error =
        EField.msg jinaKeyMsg ∧ keyMissing envTxt7.jinaKey = true) ∨
      ((async_text_search envTxt7 "q" 3 []).stat.error =
        EField.msg openrouterKeyMsg ∧ keyMissing envTxt7.openrouterKey = true)) :=
  c7_credential_gate envTxt7 "q" 3 [] (Or.inr (Or.inl rfl))
